import Mathlib

/-!
Verification development for the per-target variant-discovery pipeline of
BreaKmer (`breakmer/processor/target.py`).

The Python source is shallowly embedded: Python dicts become insertion-ordered
association lists over `String` keys, file contents become parsed value lists,
exceptions become `Except` values, and external collaborators (jellyfish,
cutadapt, the assembler, pysam) become explicit function parameters or
pre-parsed inputs, as the spec directs for delegated operations.
-/

set_option autoImplicit false

namespace BreaKmer

/-! ## Python dict model: insertion-ordered association lists -/

/-- Python `d[k] = v`: replace the value at the first occurrence of `k`,
or append the binding when `k` is absent. -/
def setVal {α : Type} : List (String × α) → String → α → List (String × α)
  | [], k, v => [(k, v)]
  | (k₁, v₁) :: rest, k, v =>
    if k₁ == k then (k₁, v) :: rest else (k₁, v₁) :: setVal rest k v

/-- Python `d[k]` as a partial lookup: the value at the first occurrence of `k`. -/
def lookupVal {α : Type} : List (String × α) → String → Option α
  | [], _ => none
  | (k₁, v₁) :: rest, k => if k₁ == k then some v₁ else lookupVal rest k

/-- Python `k in d`. -/
def hasKey {α : Type} (m : List (String × α)) (k : String) : Bool :=
  (lookupVal m k).isSome

@[simp] theorem lookupVal_nil {α : Type} (k : String) :
    lookupVal ([] : List (String × α)) k = none := rfl

theorem lookupVal_setVal_self {α : Type} (m : List (String × α)) (k : String) (v : α) :
    lookupVal (setVal m k v) k = some v := by
  induction m with
  | nil => simp [setVal, lookupVal]
  | cons p rest ih =>
    obtain ⟨k₁, v₁⟩ := p
    by_cases h : k₁ == k
    · simp [setVal, lookupVal, h]
    · simp only [setVal, lookupVal, h, if_neg, Bool.false_eq_true, if_false, ih]

theorem lookupVal_setVal_other {α : Type} (m : List (String × α)) (k k' : String) (v : α)
    (h : k' ≠ k) : lookupVal (setVal m k v) k' = lookupVal m k' := by
  induction m with
  | nil =>
    have hb : (k == k') = false := by simp [Ne.symm h]
    simp [setVal, lookupVal, hb]
  | cons p rest ih =>
    obtain ⟨k₁, v₁⟩ := p
    by_cases h₁ : k₁ == k
    · have hk : k₁ = k := by simpa using h₁
      simp [setVal, lookupVal, h₁, hk, Ne.symm h]
    · by_cases h₂ : k₁ == k'
      · simp [setVal, lookupVal, h₁, h₂]
      · simp [setVal, lookupVal, h₁, h₂, ih]

theorem hasKey_setVal {α : Type} (m : List (String × α)) (k k' : String) (v : α) :
    hasKey (setVal m k v) k' = (hasKey m k' || k == k') := by
  by_cases h : k' = k
  · subst h
    simp [hasKey, lookupVal_setVal_self]
  · have hb : (k == k') = false := by simp [Ne.symm h]
    simp [hasKey, lookupVal_setVal_other m k k' v h, hb]

/-- Key membership through `lookupVal` agrees with membership in the key list. -/
theorem hasKey_iff_mem_keys {α : Type} (m : List (String × α)) (k : String) :
    hasKey m k = true ↔ k ∈ m.map Prod.fst := by
  induction m with
  | nil => simp [hasKey, lookupVal]
  | cons p rest ih =>
    obtain ⟨k₁, v₁⟩ := p
    by_cases h : k₁ == k
    · have hk : k₁ = k := by simpa using h
      simp [hasKey, lookupVal, h, hk]
    · have hk : ¬ k = k₁ := by
        intro he
        exact h (by simp [he])
      simp [hasKey, lookupVal, h, hk, ih] at *
      tauto

/-! ## load_kmers (target.py lines 17-32)

`load_kmers(fns, kmers)` takes a comma-separated string of kmer-dump
file names and a dict. A falsy `fns` (None or the empty string, i.e. no
counter output) returns the dict unchanged. Otherwise each named file is
read line by line; each line strips to `mer count` and the dict entry for
`mer` is increased by `int(count)` (initialised to 0 when absent).

Embedding: the file-system indirection is collapsed — the falsy `fns`
case is `none`, and `some files` carries, per named file, the parsed
`(mer, count)` lines of that file. -/

/-- A kmer count dict (`kmer_dict['ref']`, `['case']`, ...). -/
abbrev KmerMap := List (String × Int)

/-- One parsed kmer-dump file: the `(mer, int(count))` pairs of its lines. -/
abbrev DumpFile := List (String × Int)

/-- Python `kmers[mer]` with default 0 (the source initialises a missing
key to 0 immediately before adding to it). -/
def getVal (m : KmerMap) (k : String) : Int :=
  (lookupVal m k).getD 0

/-- Python `if mer not in kmers: kmers[mer] = 0` followed by `kmers[mer] += int(count)`. -/
def addCount (m : KmerMap) (k : String) (c : Int) : KmerMap :=
  setVal m k (getVal m k + c)

/-- Source `load_kmers(fns, kmers)` — target.py lines 17-32. -/
def load_kmers (fns : Option (List DumpFile)) (kmers : KmerMap) : KmerMap :=
  match fns with
  | none => kmers
  | some files =>
    files.foldl (fun km f => f.foldl (fun km l => addCount km l.1 l.2) km) kmers

/-- Total count contributed to kmer `k` by the lines of one dump file. -/
def fileCount (f : DumpFile) (k : String) : Int :=
  f.foldr (fun l s => (if l.1 == k then l.2 else 0) + s) 0

/-- Total count contributed to kmer `k` by all lines across all dump files. -/
def dumpsCount (files : List DumpFile) (k : String) : Int :=
  files.foldr (fun f s => fileCount f k + s) 0

theorem getVal_addCount (m : KmerMap) (k k' : String) (c : Int) :
    getVal (addCount m k c) k' = getVal m k' + (if k == k' then c else 0) := by
  by_cases h : k' = k
  · subst h
    simp [addCount, getVal, lookupVal_setVal_self]
  · have hb : (k == k') = false := by simp [Ne.symm h]
    simp [addCount, getVal, lookupVal_setVal_other m k k' _ h, hb]

theorem getVal_foldl_addCount (f : DumpFile) (m : KmerMap) (k : String) :
    getVal (f.foldl (fun km l => addCount km l.1 l.2) m) k = getVal m k + fileCount f k := by
  induction f generalizing m with
  | nil => simp [fileCount]
  | cons l rest ih =>
    simp only [List.foldl_cons, ih, getVal_addCount, fileCount, List.foldr_cons]
    ring

/-- Claim C10. For every initial kmer mapping and every list of kmer-count files,
`load_kmers` accumulates by addition: the resulting count of any kmer is the
input mapping's count (0 when absent) plus the sum of all parsed counts for
that kmer across all files' lines. -/
theorem load_kmers_accumulates (files : List DumpFile) (kmers : KmerMap) (k : String) :
    getVal (load_kmers (some files) kmers) k = getVal kmers k + dumpsCount files k := by
  induction files generalizing kmers with
  | nil => simp [load_kmers, dumpsCount]
  | cons f rest ih =>
    simp only [load_kmers, List.foldl_cons] at *
    rw [ih, getVal_foldl_addCount]
    simp only [dumpsCount, List.foldr_cons]
    ring

/-- Claim C8. When the file-name argument to `load_kmers` is empty/absent (Python
falsy `fns`: no counter output), the input mapping is returned unchanged — no
error is raised (the embedding is a total function) — and in particular the
empty mapping is returned as the empty mapping. -/
theorem load_kmers_no_files (kmers : KmerMap) :
    load_kmers none kmers = kmers ∧ load_kmers none ([] : KmerMap) = [] :=
  ⟨rfl, rfl⟩

/-! ## Kmer differencing (compare_kmers, target.py lines 348-405)

The core set computation of `compare_kmers`:
```
sc_mers = set(kmer_dict['case'].keys()) & set(kmer_dict['case_sc'].keys())
sample_only_mers = list(sc_mers.difference(set(kmer_dict['ref'].keys())))
if self.params.get_param('normal_bam_file'):
    sample_only_mers = set(sample_only_mers).difference(set(norm_kmers.keys()))
sample_only_mers = list(sample_only_mers)
```
Python sets are modelled as deduplicated key lists; set iteration order is
deterministic in the source interpreter and is modelled here as
first-occurrence order. -/

/-- The surviving kmers: `(case ∩ case_sc) − ref` and, when a normal sample is
configured (`normMap = some n`), additionally `− n`. -/
def caseOnlyMers (caseMap scMap refMap : KmerMap) (normMap : Option KmerMap) :
    List String :=
  let sc_mers := ((caseMap.map Prod.fst).dedup).filter (fun k => hasKey scMap k)
  let sample_only := sc_mers.filter (fun k => !hasKey refMap k)
  match normMap with
  | some n => sample_only.filter (fun k => !hasKey n k)
  | none => sample_only

/-- The dict `kmer_dict['case_only']`: built by the write-out loop
`for mer in sample_only_mers: kmer_dict['case_only'][mer] = kmer_dict['case'][mer]`
(target.py lines 389-391). -/
def caseOnlyMap (caseMap scMap refMap : KmerMap) (normMap : Option KmerMap) :
    KmerMap :=
  (caseOnlyMers caseMap scMap refMap normMap).foldl
    (fun m mer => setVal m mer (getVal caseMap mer)) []

/-- The lines written to `<name>_sample_kmers.out` (target.py line 390):
`"\t".join([mer, str(count)]) + "\n"` for each surviving kmer, in emission
order. -/
def sampleKmerFileLines (caseMap scMap refMap : KmerMap) (normMap : Option KmerMap) :
    List String :=
  (caseOnlyMers caseMap scMap refMap normMap).map
    (fun mer => mer ++ "\t" ++ toString (getVal caseMap mer) ++ "\n")

theorem mem_caseOnlyMers (caseMap scMap refMap : KmerMap) (normMap : Option KmerMap)
    (k : String) :
    k ∈ caseOnlyMers caseMap scMap refMap normMap ↔
      (hasKey caseMap k = true ∧ hasKey scMap k = true ∧ hasKey refMap k = false ∧
        (∀ n, normMap = some n → hasKey n k = false)) := by
  cases normMap with
  | none =>
    simp only [caseOnlyMers, List.mem_filter, List.mem_dedup, ← hasKey_iff_mem_keys,
      Bool.not_eq_true']
    constructor
    · rintro ⟨⟨h1, h2⟩, h3⟩
      exact ⟨h1, h2, h3, fun n hn => by cases hn⟩
    · rintro ⟨h1, h2, h3, _⟩
      exact ⟨⟨h1, h2⟩, h3⟩
  | some n =>
    simp only [caseOnlyMers, List.mem_filter, List.mem_dedup, ← hasKey_iff_mem_keys,
      Bool.not_eq_true']
    constructor
    · rintro ⟨⟨⟨h1, h2⟩, h3⟩, h4⟩
      refine ⟨h1, h2, h3, fun n' hn => ?_⟩
      cases hn
      exact h4
    · rintro ⟨h1, h2, h3, h4⟩
      exact ⟨⟨⟨h1, h2⟩, h3⟩, h4 n rfl⟩

theorem hasKey_foldl_setVal (g : String → Int) (mers : List String) (m₀ : KmerMap)
    (k : String) :
    hasKey (mers.foldl (fun m mer => setVal m mer (g mer)) m₀) k =
      (hasKey m₀ k || mers.contains k) := by
  induction mers generalizing m₀ with
  | nil => simp
  | cons mer rest ih =>
    simp only [List.foldl_cons, ih, hasKey_setVal, List.contains_cons]
    by_cases h : mer = k
    · simp [h]
    · have hb1 : (mer == k) = false := by simp [h]
      have hb2 : (k == mer) = false := beq_eq_false_iff_ne.mpr (fun he => h he.symm)
      simp [hb1, hb2]

theorem getVal_setVal_self (m : KmerMap) (k : String) (v : Int) :
    getVal (setVal m k v) k = v := by
  simp [getVal, lookupVal_setVal_self]

theorem getVal_setVal_other (m : KmerMap) (k k' : String) (v : Int) (h : k' ≠ k) :
    getVal (setVal m k v) k' = getVal m k' := by
  simp [getVal, lookupVal_setVal_other m k k' v h]

theorem getVal_foldl_setVal (g : String → Int) (mers : List String) (m₀ : KmerMap)
    (k : String) :
    getVal (mers.foldl (fun m mer => setVal m mer (g mer)) m₀) k =
      if mers.contains k then g k else getVal m₀ k := by
  induction mers generalizing m₀ with
  | nil => simp
  | cons mer rest ih =>
    simp only [List.foldl_cons, ih, List.contains_cons]
    by_cases hc : rest.contains k = true
    · have hmem : k ∈ rest := by simpa using hc
      simp [hmem]
    · have hnmem : k ∉ rest := by simpa using hc
      by_cases hm : mer = k
      · subst hm
        simp [hnmem, getVal_setVal_self]
      · have hne : ¬ (k = mer) := fun he => hm he.symm
        simp [hnmem, hne, getVal_setVal_other m₀ mer k (g mer) (Ne.symm hm)]

theorem contains_iff_mem (l : List String) (k : String) : l.contains k = true ↔ k ∈ l :=
  List.elem_iff

theorem hasKey_caseOnlyMap (caseMap scMap refMap : KmerMap) (normMap : Option KmerMap)
    (k : String) :
    hasKey (caseOnlyMap caseMap scMap refMap normMap) k =
      (caseOnlyMers caseMap scMap refMap normMap).contains k := by
  rw [caseOnlyMap, hasKey_foldl_setVal]
  simp [hasKey, lookupVal]

/-- Claim C1. The sample-specific (`case_only`) kmer mapping produced by
`compare_kmers` has exactly the key set
`(keys(sample) ∩ keys(softclip)) − keys(reference) − keys(normal)` (the normal
term omitted when no normal sample is configured, i.e. `normMap = none`), and
maps each surviving kmer to its count in the sample mapping. -/
theorem caseOnly_exact_difference (caseMap scMap refMap : KmerMap)
    (normMap : Option KmerMap) (k : String) :
    (hasKey (caseOnlyMap caseMap scMap refMap normMap) k =
      (hasKey caseMap k && hasKey scMap k && !hasKey refMap k &&
        (match normMap with | some n => !hasKey n k | none => true))) ∧
    (hasKey (caseOnlyMap caseMap scMap refMap normMap) k = true →
      getVal (caseOnlyMap caseMap scMap refMap normMap) k = getVal caseMap k) := by
  have hmem := mem_caseOnlyMers caseMap scMap refMap normMap k
  constructor
  · rw [hasKey_caseOnlyMap, Bool.eq_iff_iff]
    rw [show ((caseOnlyMers caseMap scMap refMap normMap).contains k = true) ↔
        (k ∈ caseOnlyMers caseMap scMap refMap normMap) from contains_iff_mem _ _, hmem]
    cases normMap with
    | none =>
      simp only [Bool.and_true, Bool.and_eq_true, Bool.not_eq_true']
      constructor
      · rintro ⟨h1, h2, h3, _⟩
        exact ⟨⟨h1, h2⟩, h3⟩
      · rintro ⟨⟨h1, h2⟩, h3⟩
        exact ⟨h1, h2, h3, fun n hn => by cases hn⟩
    | some n =>
      simp only [Bool.and_eq_true, Bool.not_eq_true']
      constructor
      · rintro ⟨h1, h2, h3, h4⟩
        exact ⟨⟨⟨h1, h2⟩, h3⟩, h4 n rfl⟩
      · rintro ⟨⟨⟨h1, h2⟩, h3⟩, h4⟩
        refine ⟨h1, h2, h3, fun n' hn => ?_⟩
        cases hn
        exact h4
  · intro hk
    rw [hasKey_caseOnlyMap] at hk
    have hmem' : k ∈ caseOnlyMers caseMap scMap refMap normMap :=
      (contains_iff_mem _ _).mp hk
    have hfold := getVal_foldl_setVal (fun mer => getVal caseMap mer)
      (caseOnlyMers caseMap scMap refMap normMap) [] k
    rw [caseOnlyMap, hfold, if_pos ((contains_iff_mem _ _).mpr hmem')]

/-- Witness for C1: with sample `{AAA ↦ 5, CCC ↦ 2}`, soft-clip `{AAA ↦ 1, GGG ↦ 1}`,
reference `{CCC ↦ 7}` and no normal sample, the kmer `AAA` survives with its
sample count 5. -/
theorem caseOnly_exact_difference_witness :
    hasKey (caseOnlyMap [("AAA", 5), ("CCC", 2)] [("AAA", 1), ("GGG", 1)] [("CCC", 7)] none)
        "AAA" = true ∧
    getVal (caseOnlyMap [("AAA", 5), ("CCC", 2)] [("AAA", 1), ("GGG", 1)] [("CCC", 7)] none)
        "AAA" = 5 := by
  refine ⟨by decide, ?_⟩
  have h := (caseOnly_exact_difference [("AAA", 5), ("CCC", 2)] [("AAA", 1), ("GGG", 1)]
    [("CCC", 7)] none "AAA").2 (by decide)
  rw [h]
  decide

/-- Claim C9. Two runs of the kmer-differencing stage on identical sample,
soft-clip, reference, and normal kmer mappings write sample-specific kmer
files that are byte-for-byte identical: the written line lists coincide
(same surviving kmers, same counts, same line order). -/
theorem sample_kmer_file_deterministic (c₁ c₂ s₁ s₂ r₁ r₂ : KmerMap)
    (n₁ n₂ : Option KmerMap) (hc : c₁ = c₂) (hs : s₁ = s₂) (hr : r₁ = r₂)
    (hn : n₁ = n₂) :
    sampleKmerFileLines c₁ s₁ r₁ n₁ = sampleKmerFileLines c₂ s₂ r₂ n₂ := by
  subst hc hs hr hn
  rfl

/-- Witness for C9 at concrete equal inputs. -/
theorem sample_kmer_file_deterministic_witness :
    sampleKmerFileLines [("AAA", 5)] [("AAA", 1)] [] none =
      sampleKmerFileLines [("AAA", 5)] [("AAA", 1)] [] none :=
  sample_kmer_file_deterministic [("AAA", 5)] [("AAA", 5)] [("AAA", 1)] [("AAA", 1)]
    [] [] none none rfl rfl rfl rfl

/-! ## Python runtime errors -/

/-- The Python exceptions raised by the embedded code paths. -/
inductive PyErr where
  | keyError (key : String)
  | nameError (name : String)
  | attributeError (attr : String)
  | typeError (msg : String)
deriving DecidableEq, Repr

/-! ## resolve_sv (target.py lines 407-429)

`resolve_sv` walks `self.variation.kmers['clusters']` with a 1-based counter
`iter`.  Per contig it binds `contig_id = 'contig' + str(iter)` via
`set_meta_information` (together with the target values, the contigs path, and
the kmer-cluster file), then calls `query_ref()` and `make_calls()`.  When
`contig.has_result()` it calls `write_result()`, `write_bam()`, and then
`self.add_result(result)` — but the name `result` is bound nowhere in the
function (or the module), so this statement raises `NameError` and no result
is ever appended. -/

/-- A contig as resolve_sv consumes it: its assembled sequence and whether
`make_calls()` leaves it with a result (`has_result()`); the delegated
reference query and call derivation are collapsed into this flag. -/
structure Contig where
  seq : String
  hasResult : Bool
deriving DecidableEq, Repr

/-- An SV result record appended to `variation.results`. -/
abbrev SVResult := String

/-- Observable per-contig actions of `resolve_sv`, labelled by the 1-based
`iter` counter of the loop. -/
inductive REv where
  | setMeta (iter : Nat) (contigId : String)
  | queryRef (iter : Nat)
  | makeCalls (iter : Nat)
  | writeResult (iter : Nat)
  | writeBam (iter : Nat)
  | logNoResult (iter : Nat)
deriving DecidableEq, Repr

/-- The loop body of `resolve_sv`, started at `iter`.  Returns the emitted
action trace, the results appended to the target's result list, and the
exception that aborted the loop (if any). -/
def resolveSvGo (iter : Nat) : List Contig → List REv × List SVResult × Option PyErr
  | [] => ([], [], none)
  | c :: rest =>
    let contigId := "contig" ++ toString iter
    let pre := [REv.setMeta iter contigId, REv.queryRef iter, REv.makeCalls iter]
    if c.hasResult then
      -- write_result(); write_bam(); then `self.add_result(result)` raises
      -- NameError: the name `result` is not defined anywhere in resolve_sv,
      -- so nothing is appended and the loop aborts.
      (pre ++ [REv.writeResult iter, REv.writeBam iter], [], some (PyErr.nameError "result"))
    else
      let r := resolveSvGo (iter + 1) rest
      (pre ++ [REv.logNoResult iter] ++ r.1, r.2.1, r.2.2)

/-- Function `resolve_sv` on the contig list held in `kmers['clusters']`. -/
def resolve_sv (contigs : List Contig) : List REv × List SVResult × Option PyErr :=
  resolveSvGo 1 contigs

/-- How many contigs the loop actually processes: everything up to and
including the first contig with a result (whose `add_result` call aborts
the loop). -/
def numProcessed : List Contig → Nat
  | [] => 0
  | c :: rest => if c.hasResult then 1 else numProcessed rest + 1

/-- Claim C2, code-bug evaluation. On a contig list whose single contig has a
result, `resolve_sv` writes the per-contig artifacts but then raises
`NameError` on the undefined name `result`: the target's result list stays
empty instead of receiving the contig's result. -/
theorem resolve_sv_result_name_error :
    resolve_sv [⟨"ACGT", true⟩] =
      ([REv.setMeta 1 "contig1", REv.queryRef 1, REv.makeCalls 1,
        REv.writeResult 1, REv.writeBam 1], [], some (PyErr.nameError "result")) := by
  rfl

theorem resolveSvGo_block (contigs : List Contig) (i k : Nat) (hik : i ≤ k)
    (hk : k < i + numProcessed contigs) :
    ∃ pre post, (resolveSvGo i contigs).1 =
      pre ++ [REv.setMeta k ("contig" ++ toString k), REv.queryRef k,
        REv.makeCalls k] ++ post := by
  induction contigs generalizing i with
  | nil => simp [numProcessed] at hk; omega
  | cons c rest ih =>
    by_cases hcr : c.hasResult
    · have hnum : numProcessed (c :: rest) = 1 := by simp [numProcessed, hcr]
      have hki : k = i := by omega
      subst hki
      refine ⟨[], [REv.writeResult k, REv.writeBam k], ?_⟩
      simp [resolveSvGo, hcr]
    · have hnum : numProcessed (c :: rest) = numProcessed rest + 1 := by
        simp [numProcessed, hcr]
      by_cases hki : k = i
      · subst hki
        refine ⟨[], REv.logNoResult k :: (resolveSvGo (k + 1) rest).1, ?_⟩
        simp [resolveSvGo, hcr]
      · have hik' : i + 1 ≤ k := by omega
        have hk' : k < (i + 1) + numProcessed rest := by omega
        obtain ⟨pre, post, hpp⟩ := ih (i + 1) hik' hk'
        refine ⟨[REv.setMeta i ("contig" ++ toString i), REv.queryRef i,
          REv.makeCalls i, REv.logNoResult i] ++ pre, post, ?_⟩
        simp [resolveSvGo, hcr, hpp]

/-- Claim C6. For every contig list passed through resolution, the i-th contig
processed (counting from 1 in emission order) is assigned the identifier
`"contig"` followed by the decimal numeral i, and this identifier is bound to
the contig's metadata (its `set_meta_information` action) before the reference
query and call derivation for that contig are performed: the trace contains
`setMeta i "contig<i>"` immediately followed by `queryRef i` and `makeCalls i`. -/
theorem resolve_sv_contig_ids (contigs : List Contig) (i : Nat) (h1 : 1 ≤ i)
    (h2 : i ≤ numProcessed contigs) :
    ∃ pre post, (resolve_sv contigs).1 =
      pre ++ [REv.setMeta i ("contig" ++ toString i), REv.queryRef i,
        REv.makeCalls i] ++ post :=
  resolveSvGo_block contigs 1 i h1 (by omega)

/-- Witness for C6: with two processed contigs (the second of which has a
result), the second contig's block carries the identifier `"contig2"`. -/
theorem resolve_sv_contig_ids_witness :
    ∃ pre post, (resolve_sv [⟨"AA", false⟩, ⟨"CC", true⟩]).1 =
      pre ++ [REv.setMeta 2 ("contig" ++ toString 2), REv.queryRef 2,
        REv.makeCalls 2] ++ post :=
  resolve_sv_contig_ids [⟨"AA", false⟩, ⟨"CC", true⟩] 2 (by decide) (by decide)

/-! ## Variation state (target.py lines 35-83) -/

/-- A cleaned read record (opaque payload). -/
abbrev ReadRec := String

/-- Modelled from the spec: the per-extraction read container returned by
`breakmer.processor.bam_handler.get_variant_reads` (bam_handler is not part
of the analyzed core).  It stores the extracted sv reads (`.sv`) and its
`clear_sv_reads()` releases them. -/
structure VarReads where
  sv : List ReadRec
deriving DecidableEq, Repr

def VarReads.clearSvReads (r : VarReads) : VarReads := { r with sv := [] }

/-- A value stored in the `variation.kmers` dict: either a kmer count dict
(`'ref'`, `'case'`, `'case_sc'`, `'case_only'`) or the contig cluster list
(`'clusters'`). -/
inductive KVal where
  | kmap (m : KmerMap)
  | clusters (cs : List Contig)
deriving DecidableEq, Repr

/-- The `Variation.__init__` state (target.py lines 39-46). -/
structure Variation where
  var_reads : List (String × VarReads)
  sv_reads : Option (List ReadRec)
  cleaned_read_recs : Option (List (String × Option (List ReadRec)))
  kmer_clusters : List Contig
  kmers : List (String × KVal)
  results : List SVResult
  svs : List (String × String)
deriving DecidableEq, Repr

/-- The freshly constructed Variation: `{}`/`None`/`[]` fields. -/
def Variation.init : Variation := ⟨[], none, none, [], [], [], []⟩

/-- Method `setup_cleaned_reads(type)` (lines 48-54): reset `cleaned_read_recs` to
`{}` when falsy (`None` or `{}`), then `cleaned_read_recs[type] = None`. -/
def Variation.setup_cleaned_reads (v : Variation) (t : String) : Variation :=
  let recs := v.cleaned_read_recs.getD []
  { v with cleaned_read_recs := some (setVal recs t none) }

/-- Method `clear_sv_reads(type)` (lines 56-59): `self.var_reads[type].clear_sv_reads()`
— dict lookup (KeyError when absent), then release that entry's reads. -/
def Variation.clear_sv_reads (v : Variation) (t : String) : Except PyErr Variation :=
  match lookupVal v.var_reads t with
  | none => Except.error (PyErr.keyError t)
  | some vr =>
    Except.ok { v with var_reads := setVal v.var_reads t vr.clearSvReads }

/-- Method `clear_cleaned_reads()` (lines 61-64): `self.cleaned_read_recs = None` —
note: not per sample type. -/
def Variation.clear_cleaned_reads (v : Variation) : Variation :=
  { v with cleaned_read_recs := none }

/-- Method `continue_analysis_check(type)` (lines 66-73):
`len(self.cleaned_read_recs[type]) == 0` decides the check. -/
def Variation.continue_analysis_check (v : Variation) (t : String) : Except PyErr Bool :=
  match v.cleaned_read_recs with
  | none => Except.error (PyErr.typeError "NoneType")
  | some m =>
    match lookupVal m t with
    | none => Except.error (PyErr.keyError t)
    | some none => Except.error (PyErr.typeError "NoneType")
    | some (some recs) => Except.ok (recs.length != 0)

/-- Method `get_sv_reads(type)` (lines 75-78): `self.var_reads[type].sv`. -/
def Variation.get_sv_reads_of (v : Variation) (t : String) : Except PyErr (List ReadRec) :=
  match lookupVal v.var_reads t with
  | none => Except.error (PyErr.keyError t)
  | some vr => Except.ok vr.sv

/-- Method `add_result(result)` (lines 80-83): append to `self.results`. -/
def Variation.add_result (v : Variation) (r : SVResult) : Variation :=
  { v with results := v.results ++ [r] }

/-- Assignment `self.variation.cleaned_read_recs[type] = <records>` — the per-type
assignment performed by clean_reads (target.py line 278). -/
def Variation.set_cleaned_recs (v : Variation) (t : String) (recs : List ReadRec) :
    Except PyErr Variation :=
  match v.cleaned_read_recs with
  | none => Except.error (PyErr.typeError "NoneType")
  | some m => Except.ok { v with cleaned_read_recs := some (setVal m t (some recs)) }

/-- The cleaned-read entry stored for sample type `t`:
`none` when `cleaned_read_recs` is `None` or has no key `t`. -/
def cleanedFor (v : Variation) (t : String) : Option (Option (List ReadRec)) :=
  match v.cleaned_read_recs with
  | none => none
  | some m => lookupVal m t

/-! ## Read extraction and cleaning (target.py lines 227-346)

`extract_bam_reads` and `setup_read_extraction_files` contain a half-finished
rename of the parameter `type` to `sampleType`: several expressions still
reference the name `type`, which in this module resolves to the Python
builtin `type`.  The builtin is only used in `'%s' % type` format expressions,
in `== 'sv'` comparisons and as a dict key, so it is modelled by its Python 2
`%s` rendering `"<type 'type'>"` (a string equal to no sample-type string).

`self.files` is tracked at the level of which keys are set: the claims only
depend on key presence, never on the stored path strings. -/

/-- The Python 2 `%s` rendering of the builtin `type`. -/
def builtinTypeStr : String := "<type \x27type\x27>"

/-- The key set of `self.files`. -/
abbrev FilesDict := List String

/-- Python dict key assignment, key-set view. -/
def insertKey (files : FilesDict) (k : String) : FilesDict :=
  if files.contains k then files else files ++ [k]

/-- The keys `setup()` leaves in `self.files` before any stage runs
(target.py lines 154 and 172). -/
def initialTargetFiles : FilesDict := ["target_ref_fn", "ref_kmer_dump_fn"]

/-- TargetManager state relevant to the extraction/cleaning stages. -/
structure TMState where
  files : FilesDict
  variation : Variation
  outputDirRemoved : Bool
deriving DecidableEq, Repr

/-- Method `setup_read_extraction_files(sampleType)` (lines 324-346): line 338 keys
the fastq by the `sampleType` parameter, line 340 keys the soft-clip fasta by
the builtin `type`; the bam keys are only set when `sampleType == 'sv'`. -/
def setup_read_extraction_files (sampleType : String) (files : FilesDict) : FilesDict :=
  let f1 := insertKey files (sampleType ++ "_fq")
  let f2 := insertKey f1 (builtinTypeStr ++ "_sc_unmapped_fa")
  if sampleType == "sv" then insertKey (insertKey f2 "sv_bam") "sv_bam_sorted" else f2

/-- Method `extract_bam_reads(sampleType)` (lines 284-322).  Line 292 passes the
builtin `type` (not `sampleType`) to `setup_read_extraction_files`; line 297
formats a log message that reads `self.files['sv_fq']` — a KeyError whenever
that key was never set; line 302 stores the externally extracted reads under
the single dict key `type` (the builtin) for every sample type; line 307
reads `self.files['sv_bam']` for the `'sv'` sample type. -/
def extract_bam_reads (extReads : VarReads) (sampleType : String) (st : TMState) :
    Except PyErr TMState :=
  let files := setup_read_extraction_files builtinTypeStr st.files
  if !files.contains "sv_fq" then Except.error (PyErr.keyError "sv_fq")
  else
    let v := { st.variation with
      var_reads := setVal st.variation.var_reads builtinTypeStr extReads }
    if sampleType == "sv" && !files.contains "sv_bam" then
      Except.error (PyErr.keyError "sv_bam")
    else Except.ok { st with files := files, variation := v }

/-- Method `clean_reads(type)` (lines 254-282); the cutadapt/fastq externals are a
function `cleanedOut` from sample type to the cleaned read records it leaves. -/
def clean_reads (cleanedOut : String → List ReadRec) (t : String) (st : TMState) :
    Except PyErr (TMState × Bool) :=
  let files := insertKey st.files (t ++ "_cleaned_fq")
  if !files.contains (t ++ "_fq") then Except.error (PyErr.keyError (t ++ "_fq"))
  else
    let v := st.variation.setup_cleaned_reads t
    match v.get_sv_reads_of t with
    | Except.error e => Except.error e
    | Except.ok _ =>
      match v.set_cleaned_recs t (cleanedOut t) with
      | Except.error e => Except.error e
      | Except.ok v2 =>
        match v2.clear_sv_reads t with
        | Except.error e => Except.error e
        | Except.ok v3 =>
          match v3.continue_analysis_check t with
          | Except.error e => Except.error e
          | Except.ok check =>
            Except.ok ({ st with files := files, variation := v3 }, check)

/-- Method `find_sv_reads()` (lines 227-252): extract the `'sv'` reads, optionally
extract and clean the `'norm'` reads, then gate on cleaning the `'sv'` reads,
removing the output directory when nothing survives. -/
def find_sv_reads (extReads : VarReads) (cleanedOut : String → List ReadRec)
    (normalConfigured : Bool) (st : TMState) : Except PyErr (TMState × Bool) :=
  match extract_bam_reads extReads "sv" st with
  | Except.error e => Except.error e
  | Except.ok st1 =>
    let afterNorm : Except PyErr TMState :=
      if normalConfigured then
        match extract_bam_reads extReads "norm" st1 with
        | Except.error e => Except.error e
        | Except.ok st2 =>
          match clean_reads cleanedOut "norm" st2 with
          | Except.error e => Except.error e
          | Except.ok (st3, _) => Except.ok st3
      else Except.ok st1
    match afterNorm with
    | Except.error e => Except.error e
    | Except.ok st4 =>
      match clean_reads cleanedOut "sv" st4 with
      | Except.error e => Except.error e
      | Except.ok (st5, check) =>
        if check then Except.ok (st5, true)
        else Except.ok ({ st5 with outputDirRemoved := true }, false)

/-- Claim C4, code-bug evaluation. On any freshly set-up target, `find_sv_reads`
never reaches the cleaning gate: its first statement
`self.extract_bam_reads('sv')` raises `KeyError('sv_fq')`, because
`setup_read_extraction_files` was called with the builtin `type` instead of
the sample-type string and therefore never set the `'sv_fq'` key that the
line-297 log message reads. -/
theorem find_sv_reads_key_error (extReads : VarReads)
    (cleanedOut : String → List ReadRec) (normalConfigured : Bool) (v : Variation)
    (removed : Bool) :
    find_sv_reads extReads cleanedOut normalConfigured
      ⟨initialTargetFiles, v, removed⟩ = Except.error (PyErr.keyError "sv_fq") := by
  rfl

/-! ## Per-sample-type frame properties (claim C5) -/

/-- A Variation holding state for both sample types: sv reads for `'sv'`, and
cleaned-read records for both `'sv'` and `'norm'`. -/
def c5Var : Variation :=
  { Variation.init with
    var_reads := [("sv", ⟨["read0"]⟩)],
    cleaned_read_recs := some [("sv", some ["read1"]), ("norm", some ["read2"])] }

/-- Claim C5, counterexample. Clearing the cleaned-read records — the operation
the pipeline uses to release the `'sv'` cleaned reads after assembly
(`clear_cleaned_reads`, invoked at target.py line 404) — does not leave the
other sample type's cleaned-read records unchanged: on a state holding records
for both `'sv'` and `'norm'`, it destroys the `'norm'` entry too, because
`clear_cleaned_reads` sets the whole dict to `None` rather than clearing one
sample type's key. -/
theorem clear_cleaned_reads_not_per_type :
    cleanedFor (Variation.clear_cleaned_reads c5Var) "norm" ≠ cleanedFor c5Var "norm" := by
  decide

/-- Claim C5, amended. The genuinely per-type operations do keep the two sample
types' intermediate state independent: setting up or assigning one sample
type's cleaned-read records and clearing one sample type's sv reads leave the
other sample type's `var_reads` entry and cleaned-read entry unchanged
(cleaned-read records are held under independent per-type keys), and a
successful read extraction writes only the single builtin-`type` key, so it
leaves both `'sv'` and `'norm'` entries untouched.  However, the cleaned-read
clearing operation (`clear_cleaned_reads`) is not per-type: it discards both
sample types' cleaned-read records at once. -/
theorem variation_per_type_frame (v : Variation) (t t' : String) (recs : List ReadRec)
    (v₂ v₃ : Variation) (er : VarReads) (ty : String) (s s' : TMState)
    (hne : t' ≠ t)
    (h₂ : v.clear_sv_reads t = Except.ok v₂)
    (h₃ : v.set_cleaned_recs t recs = Except.ok v₃)
    (h₄ : extract_bam_reads er ty s = Except.ok s') :
    cleanedFor (v.setup_cleaned_reads t) t' = cleanedFor v t' ∧
    (Variation.clear_cleaned_reads v).cleaned_read_recs = none ∧
    lookupVal v₂.var_reads t' = lookupVal v.var_reads t' ∧
    v₂.cleaned_read_recs = v.cleaned_read_recs ∧
    cleanedFor v₃ t' = cleanedFor v t' ∧
    lookupVal s'.variation.var_reads "sv" = lookupVal s.variation.var_reads "sv" ∧
    lookupVal s'.variation.var_reads "norm" = lookupVal s.variation.var_reads "norm" ∧
    s'.variation.cleaned_read_recs = s.variation.cleaned_read_recs := by
  refine ⟨?_, rfl, ?_, ?_, ?_, ?_, ?_, ?_⟩
  · cases hrec : v.cleaned_read_recs with
    | none => simp [Variation.setup_cleaned_reads, cleanedFor, hrec,
        lookupVal_setVal_other _ t t' none hne]
    | some m => simp [Variation.setup_cleaned_reads, cleanedFor, hrec,
        lookupVal_setVal_other m t t' none hne]
  · rw [Variation.clear_sv_reads] at h₂
    cases hvr : lookupVal v.var_reads t with
    | none => rw [hvr] at h₂; cases h₂
    | some vr =>
      rw [hvr] at h₂
      cases h₂
      exact lookupVal_setVal_other v.var_reads t t' vr.clearSvReads hne
  · rw [Variation.clear_sv_reads] at h₂
    cases hvr : lookupVal v.var_reads t with
    | none => rw [hvr] at h₂; cases h₂
    | some vr => rw [hvr] at h₂; cases h₂; rfl
  · rw [Variation.set_cleaned_recs] at h₃
    cases hrec : v.cleaned_read_recs with
    | none => rw [hrec] at h₃; cases h₃
    | some m =>
      rw [hrec] at h₃
      cases h₃
      simp [cleanedFor, hrec, lookupVal_setVal_other m t t' (some recs) hne]
  all_goals {
    rw [extract_bam_reads] at h₄
    by_cases hc1 : (setup_read_extraction_files builtinTypeStr s.files).contains "sv_fq" = true
    · rw [if_neg (fun hcontra => by rw [hc1] at hcontra; simp at hcontra)] at h₄
      by_cases hc2 : (ty == "sv" &&
          !(setup_read_extraction_files builtinTypeStr s.files).contains "sv_bam") = true
      · rw [if_pos hc2] at h₄; cases h₄
      · rw [if_neg hc2] at h₄
        cases h₄
        first
        | exact lookupVal_setVal_other s.variation.var_reads builtinTypeStr "sv" er
            (by decide)
        | exact lookupVal_setVal_other s.variation.var_reads builtinTypeStr "norm" er
            (by decide)
        | rfl
    · have hc1' : (setup_read_extraction_files builtinTypeStr s.files).contains "sv_fq"
          = false := by
        revert hc1
        cases (setup_read_extraction_files builtinTypeStr s.files).contains "sv_fq" <;> simp
      rw [if_pos (by rw [hc1']; rfl)] at h₄
      cases h₄
  }

/-- The cleared/assigned/extracted successor states used by the C5 witness. -/
def c5VarCleared : Variation := { c5Var with var_reads := [("sv", ⟨[]⟩)] }

def c5VarSet : Variation :=
  { c5Var with cleaned_read_recs := some [("sv", some ["r"]), ("norm", some ["read2"])] }

def c5ExtIn : TMState := ⟨["sv_fq"], Variation.init, false⟩

def c5ExtOut : TMState :=
  ⟨["sv_fq", builtinTypeStr ++ "_fq", builtinTypeStr ++ "_sc_unmapped_fa"],
   { Variation.init with var_reads := [(builtinTypeStr, ⟨[]⟩)] }, false⟩

/-- Witness for the amended C5 at concrete inputs: setting up the `'sv'`
cleaned reads leaves the `'norm'` cleaned-read entry of `c5Var` unchanged. -/
theorem variation_per_type_frame_witness :
    cleanedFor (Variation.setup_cleaned_reads c5Var "sv") "norm" =
      cleanedFor c5Var "norm" :=
  (variation_per_type_frame c5Var "sv" "norm" ["r"] c5VarCleared c5VarSet ⟨[]⟩ "norm"
    c5ExtIn c5ExtOut (by decide) rfl rfl rfl).1

/-! ## compare_kmers, state level (target.py lines 348-405)

`kmer_dict` aliases `self.variation.kmers`.  The jellyfish invocations are
pre-parsed dump inputs (the `fns` argument shape of `load_kmers`); the
`'target_altref_fn'` branch is dead code (the assignment of that key is
commented out in `setup`) and is omitted; the assembler
(`assembly.init_assembly`) is an external collaborator passed as a function,
per the spec's Clusterer capability interface. -/

/-- Method `compare_kmers()`: build the ref/case/case_sc dicts, derive the
sample-only kmers and write them out, clear the ref/case/case_sc dicts,
cluster, release the cleaned reads, and clear `case_only`.  Returns the
updated `variation` together with the written file lines. -/
def compare_kmers (initAssembly : KmerMap → Option (List ReadRec) → List Contig)
    (refDumps : List (Option (List DumpFile)))
    (caseDump scDump : Option (List DumpFile))
    (normConfigured : Bool) (normDump : Option (List DumpFile))
    (v : Variation) : Except PyErr (Variation × List String) :=
  let refMap := refDumps.foldl (fun m d => load_kmers d m) []
  let kd := setVal v.kmers "ref" (KVal.kmap refMap)
  let caseMap := load_kmers caseDump []
  let kd := setVal kd "case" (KVal.kmap caseMap)
  let scMap := load_kmers scDump []
  let kd := setVal kd "case_sc" (KVal.kmap scMap)
  let normMap := if normConfigured then some (load_kmers normDump []) else none
  let lines := sampleKmerFileLines caseMap scMap refMap normMap
  let caseOnly := caseOnlyMap caseMap scMap refMap normMap
  let kd := setVal kd "case_only" (KVal.kmap caseOnly)
  let kd := setVal kd "ref" (KVal.kmap [])
  let kd := setVal kd "case" (KVal.kmap [])
  let kd := setVal kd "case_sc" (KVal.kmap [])
  match v.cleaned_read_recs with
  | none => Except.error (PyErr.typeError "NoneType")
  | some m =>
    match lookupVal m "sv" with
    | none => Except.error (PyErr.keyError "sv")
    | some svRecs =>
      let kd := setVal kd "clusters" (KVal.clusters (initAssembly caseOnly svRecs))
      let kd := setVal kd "case_only" (KVal.kmap [])
      Except.ok ({ v with kmers := kd, cleaned_read_recs := none }, lines)

/-- Claim C7. After `compare_kmers` returns, the reference kmer mapping, the
full sample kmer mapping, the sample soft-clip kmer mapping, and the
sample-specific (`case_only`) kmer mapping held in the target's state are all
empty, and no normal kmer mapping is retained in the target's state (the
normal kmers live only in the local `norm_kmers`; `'norm'` is never a key of
`variation.kmers`). -/
theorem compare_kmers_clears_state
    (initAssembly : KmerMap → Option (List ReadRec) → List Contig)
    (refDumps : List (Option (List DumpFile)))
    (caseDump scDump : Option (List DumpFile))
    (normConfigured : Bool) (normDump : Option (List DumpFile))
    (v v' : Variation) (lines : List String)
    (hnorm : hasKey v.kmers "norm" = false)
    (hok : compare_kmers initAssembly refDumps caseDump scDump normConfigured normDump v
      = Except.ok (v', lines)) :
    lookupVal v'.kmers "ref" = some (KVal.kmap []) ∧
    lookupVal v'.kmers "case" = some (KVal.kmap []) ∧
    lookupVal v'.kmers "case_sc" = some (KVal.kmap []) ∧
    lookupVal v'.kmers "case_only" = some (KVal.kmap []) ∧
    hasKey v'.kmers "norm" = false := by
  simp only [compare_kmers] at hok
  split at hok
  case h_1 => cases hok
  case h_2 m =>
    split at hok
    case h_1 => cases hok
    case h_2 svRecs hsv =>
      injection hok with hpair
      injection hpair with hv hl
      have hk : v'.kmers = setVal (setVal (setVal (setVal (setVal (setVal (setVal (setVal
          (setVal v.kmers "ref"
            (KVal.kmap (refDumps.foldl (fun m d => load_kmers d m) [])))
          "case" (KVal.kmap (load_kmers caseDump [])))
          "case_sc" (KVal.kmap (load_kmers scDump [])))
          "case_only" (KVal.kmap (caseOnlyMap (load_kmers caseDump [])
            (load_kmers scDump []) (refDumps.foldl (fun m d => load_kmers d m) [])
            (if normConfigured then some (load_kmers normDump []) else none))))
          "ref" (KVal.kmap [])) "case" (KVal.kmap [])) "case_sc" (KVal.kmap []))
          "clusters" (KVal.clusters (initAssembly
            (caseOnlyMap (load_kmers caseDump []) (load_kmers scDump [])
              (refDumps.foldl (fun m d => load_kmers d m) [])
              (if normConfigured then some (load_kmers normDump []) else none)) svRecs)))
          "case_only" (KVal.kmap []) := by
        rw [← hv]
      refine ⟨?_, ?_, ?_, ?_, ?_⟩
      · rw [hk, lookupVal_setVal_other _ "case_only" "ref" _ (by decide),
          lookupVal_setVal_other _ "clusters" "ref" _ (by decide),
          lookupVal_setVal_other _ "case_sc" "ref" _ (by decide),
          lookupVal_setVal_other _ "case" "ref" _ (by decide),
          lookupVal_setVal_self]
      · rw [hk, lookupVal_setVal_other _ "case_only" "case" _ (by decide),
          lookupVal_setVal_other _ "clusters" "case" _ (by decide),
          lookupVal_setVal_other _ "case_sc" "case" _ (by decide),
          lookupVal_setVal_self]
      · rw [hk, lookupVal_setVal_other _ "case_only" "case_sc" _ (by decide),
          lookupVal_setVal_other _ "clusters" "case_sc" _ (by decide),
          lookupVal_setVal_self]
      · rw [hk, lookupVal_setVal_self]
      · rw [hk, hasKey_setVal, hasKey_setVal, hasKey_setVal, hasKey_setVal,
          hasKey_setVal, hasKey_setVal, hasKey_setVal, hasKey_setVal, hasKey_setVal,
          hnorm]
        decide

/-- A Variation ready for compare_kmers: cleaned sv records present. -/
def c7InVar : Variation :=
  { Variation.init with cleaned_read_recs := some [("sv", none)] }

/-- The Variation compare_kmers leaves behind on trivial inputs. -/
def c7OutVar : Variation :=
  { Variation.init with
    kmers := [("ref", KVal.kmap []), ("case", KVal.kmap []), ("case_sc", KVal.kmap []),
              ("case_only", KVal.kmap []), ("clusters", KVal.clusters [])],
    cleaned_read_recs := none }

/-- Witness for C7: a concrete run of compare_kmers (no dumps, trivial
assembler) whose output state has `'ref'` cleared and no `'norm'` key. -/
theorem compare_kmers_clears_state_witness :
    lookupVal c7OutVar.kmers "ref" = some (KVal.kmap []) ∧
    hasKey c7OutVar.kmers "norm" = false :=
  ⟨(compare_kmers_clears_state (fun _ _ => []) [] none none false none c7InVar c7OutVar []
      rfl rfl).1,
   (compare_kmers_clears_state (fun _ _ => []) [] none none false none c7InVar c7OutVar []
      rfl rfl).2.2.2.2⟩

/-! ## complete_analysis (target.py lines 431-436)

```
def complete_analysis(self):
    if len(self.results) > 0:
        self.write_results()
    else:
        self.rm_output_dir()
```
`self.results` is an attribute lookup on the TargetManager instance.  The
instance attribute names are exactly those assigned in `__init__` (`setup`
only writes into the `paths`/`files` dicts), plus the class's method names;
`results` is none of them (results are accumulated on `self.variation`), and
no `write_results` method exists either.  Attribute lookup is modelled
explicitly over those name lists. -/

/-- The instance attributes `TargetManager.__init__` assigns (lines 109-122). -/
def targetManagerInstanceAttrs : List String :=
  ["params", "loggingName", "name", "chrom", "start", "end",
   "paths", "files", "read_len", "repeat_mask", "variation", "regionBuffer"]

/-- The method names defined on the TargetManager class (lines 124-464). -/
def targetManagerMethodAttrs : List String :=
  ["setup", "add_path", "set_ref_data", "find_sv_reads", "clean_reads",
   "extract_bam_reads", "setup_read_extraction_files", "compare_kmers",
   "resolve_sv", "complete_analysis", "get_target_intervals", "get_values",
   "get_sv_reads", "clear_sv_reads", "clear_cleaned_reads", "rm_output_dir",
   "add_result"]

/-- Python attribute resolution on a TargetManager instance. -/
def tmHasAttr (a : String) : Bool :=
  targetManagerInstanceAttrs.contains a || targetManagerMethodAttrs.contains a

/-- What a successful finalize step would do. -/
inductive FinalizeAction where
  | wroteResults
  | removedOutputDir
deriving DecidableEq, Repr

/-- Method `complete_analysis()`: the parameter is the result list the claim intends
(`self.variation.results`); the body first resolves the attribute `results`
on the instance — which does not exist — and, were it to exist and be
non-empty, would then resolve the equally non-existent `write_results`. -/
def complete_analysis (variationResults : List SVResult) : Except PyErr FinalizeAction :=
  if tmHasAttr "results" then
    if variationResults.length > 0 then
      if tmHasAttr "write_results" then Except.ok FinalizeAction.wroteResults
      else Except.error (PyErr.attributeError "write_results")
    else Except.ok FinalizeAction.removedOutputDir
  else Except.error (PyErr.attributeError "results")

/-- Claim C3, code-bug evaluation. For every accumulated result list — empty or
not — `complete_analysis` raises `AttributeError("results")`: the
lines-433 read of `self.results` names an attribute TargetManager never
assigns (results live on `self.variation.results`), so the finalize stage
neither writes the aggregate artifact nor removes the output directory. -/
theorem complete_analysis_attribute_error (variationResults : List SVResult) :
    complete_analysis variationResults = Except.error (PyErr.attributeError "results") := by
  rfl

end BreaKmer
